import Mathlib

/-!
Shallow embedding of the `botvac_testing` repository core:
`botvac_tools/lds/lds.py` (the `Scan` container) and
`botvac_tools/parser/scan_parser.py` (the `ScanParser` pipeline).

Modelling conventions:
* Python floats are modelled by an arbitrary `LinearOrderedField α`
  (instantiated at `ℝ` with `Real.pi` for the constant `np.pi`, and at `ℚ`
  for executable sanity witnesses).  Values parsed from text are exact
  rationals (`ℚ`), cast into `α` when handed to the `Scan`.
* Python strings are modelled as `List Char`; the splitting primitives of
  `str.split` are implemented directly so that they compute by `decide`.
* A Python method that mutates `self` and may raise is modelled as a
  function returning the post-call state together with `Option`/`Except`
  error information; in CPython the mutations performed before a `raise`
  survive, so the post-call state is returned even in the error case.
* `np.argsort` followed by fancy-indexing all four arrays with the same
  index vector is modelled as sorting the list of zipped 4-tuples by the
  angle component and projecting the components back out (the same
  permutation is applied to the four sequences; numpy's default quicksort
  breaks ties arbitrarily, here a stable insertion sort fixes one definite
  tie-break, which no property below depends on).
* `np.int32` intensities and error codes are modelled as `ℤ` (the values
  involved are tiny, so wrap-around is irrelevant).
-/

namespace Botvac

/-- The five distinct `ValueError` raise-sites of the source, keyed by the
error kinds named in the spec (§7) plus the numeric-conversion failure of
`float()`/`int()` which the spec's four kinds do not cover. -/
inductive LdsError where
  | invalidUnit
  | malformedRecord
  | invalidValue
  | outOfOrder
  | conversionError
deriving DecidableEq

/-- State of `lds.Scan`: the four parallel measurement arrays, the dirty
flag `_unsorted`, and the fixed `_distance_max` (set to `5.` in
`__init__`). -/
structure Scan (α : Type) where
  _distances : List α
  _angles : List α
  _intensities : List ℤ
  _error_codes : List ℤ
  _unsorted : Bool
  _distance_max : α
deriving DecidableEq

/-- `Scan.__init__`: empty arrays, dirty flag set, max range 5. -/
def Scan.empty {α : Type} [LinearOrderedField α] : Scan α :=
  { _distances := [], _angles := [], _intensities := [], _error_codes := [],
    _unsorted := true, _distance_max := 5 }

/-- The four parallel sequences zipped into one list of records
`(angle, distance, intensity, error_code)`; index `i` of this list is the
`i`-th physical measurement. -/
def Scan.zip4 {α : Type} (s : Scan α) : List (α × α × ℤ × ℤ) :=
  s._angles.zip (s._distances.zip (s._intensities.zip s._error_codes))

/-- `Scan._sort_measurements`: if the dirty flag is set, apply the sorting
permutation of the angles (`np.argsort(self._angles)`) to all four arrays
and clear the flag; otherwise do nothing. -/
def Scan._sort_measurements {α : Type} [LinearOrderedField α] (s : Scan α) : Scan α :=
  if s._unsorted then
    let sorted := s.zip4.insertionSort (fun x y => x.1 ≤ y.1)
    { s with
      _angles := sorted.map (fun t => t.1),
      _distances := sorted.map (fun t => t.2.1),
      _intensities := sorted.map (fun t => t.2.2.1),
      _error_codes := sorted.map (fun t => t.2.2.2),
      _unsorted := false }
  else s

/-- `Scan.distances`: sort-if-dirty, then return the distances; the second
component is the post-call object state. -/
def Scan.distances {α : Type} [LinearOrderedField α] (s : Scan α) : List α × Scan α :=
  (s._sort_measurements._distances, s._sort_measurements)

/-- `Scan.angles`: sort-if-dirty, then return the angles. -/
def Scan.angles {α : Type} [LinearOrderedField α] (s : Scan α) : List α × Scan α :=
  (s._sort_measurements._angles, s._sort_measurements)

/-- `Scan.intensities`: sort-if-dirty, then return the intensities. -/
def Scan.intensities {α : Type} [LinearOrderedField α] (s : Scan α) : List ℤ × Scan α :=
  (s._sort_measurements._intensities, s._sort_measurements)

/-- `Scan.error_codes`: sort-if-dirty, then return the error codes. -/
def Scan.error_codes {α : Type} [LinearOrderedField α] (s : Scan α) : List ℤ × Scan α :=
  (s._sort_measurements._error_codes, s._sort_measurements)

/-- `Scan.x`: sort-if-dirty, then return `self._distances*np.cos(self._angles)`
elementwise.  `cosf` is the embedding of `np.cos`. -/
def Scan.x {α : Type} [LinearOrderedField α] (cosf : α → α) (s : Scan α) :
    List α × Scan α :=
  (List.zipWith (fun d a => d * cosf a) s._sort_measurements._distances
    s._sort_measurements._angles, s._sort_measurements)

/-- `Scan.y`: sort-if-dirty, then return `self._distances*np.sin(self._angles)`
elementwise.  `sinf` is the embedding of `np.sin`. -/
def Scan.y {α : Type} [LinearOrderedField α] (sinf : α → α) (s : Scan α) :
    List α × Scan α :=
  (List.zipWith (fun d a => d * sinf a) s._sort_measurements._distances
    s._sort_measurements._angles, s._sort_measurements)

/-- `Scan.points`: `np.vstack((self.x(), self.y()))`, evaluating `self.x()`
then `self.y()` on the object, returning the 2×N stack as a pair of rows. -/
def Scan.points {α : Type} [LinearOrderedField α] (cosf sinf : α → α) (s : Scan α) :
    (List α × List α) × Scan α :=
  let xr := s.x cosf
  let yr := xr.2.y sinf
  ((xr.1, yr.1), yr.2)

/-- `acceptable_lu` of `Scan.add_measurement`. -/
def acceptable_lu : List String := ["meters", "millimeters"]

/-- `acceptable_au` of `Scan.add_measurement`. -/
def acceptable_au : List String := ["degrees", "radians"]

/-- `Scan.add_measurement`: sets the dirty flag, validates the unit strings
(raising `InvalidUnit` for anything unrecognized), converts millimeters to
meters (`/1000`), zeroes the distance when it is strictly greater than
`_distance_max`, converts degrees to radians (`*np.pi/180`, with `piv` the
embedding of `np.pi`), and appends one record to each of the four arrays.
Returns the post-call state and the raised error, if any (the dirty flag
assignment precedes validation in the source, so the returned state has
`_unsorted = true` even when `InvalidUnit` is raised). -/
def Scan.add_measurement {α : Type} [LinearOrderedField α] (s : Scan α)
    (piv distance angle : α) (intensity error_code : ℤ)
    (linear_unit angular_unit : String) : Scan α × Option LdsError :=
  let s := { s with _unsorted := true }
  if linear_unit ∉ acceptable_lu then
    (s, some .invalidUnit)
  else if angular_unit ∉ acceptable_au then
    (s, some .invalidUnit)
  else
    let distance := if linear_unit = "millimeters" then distance / 1000 else distance
    let distance := if distance > s._distance_max then 0 else distance
    let angle := if angular_unit = "degrees" then angle * piv / 180 else angle
    ({ s with
        _distances := s._distances ++ [distance],
        _angles := s._angles ++ [angle],
        _intensities := s._intensities ++ [intensity],
        _error_codes := s._error_codes ++ [error_code] }, none)

/-- The scan states reachable from a fresh `Scan()` by successful
`add_measurement` calls and by read-accessor calls (each accessor mutates
the object into its sort-if-dirty state `_sort_measurements`). -/
inductive Reachable {α : Type} [LinearOrderedField α] (piv : α) : Scan α → Prop where
  | empty : Reachable piv Scan.empty
  | add {s : Scan α} {d a : α} {i e : ℤ} {lu au : String} :
      Reachable piv s →
      (s.add_measurement piv d a i e lu au).2 = none →
      Reachable piv (s.add_measurement piv d a i e lu au).1
  | access {s : Scan α} : Reachable piv s → Reachable piv s._sort_measurements

/-- All four sequences have the same length. -/
def Scan.aligned {α : Type} (s : Scan α) : Prop :=
  s._distances.length = s._angles.length ∧
  s._intensities.length = s._angles.length ∧
  s._error_codes.length = s._angles.length

end Botvac

namespace ScanParser

open Botvac

/-- `start_token = 'AngleInDegrees'`. -/
def start_token : List Char := "AngleInDegrees".toList

/-- `end_token = 'ROTATION_SPEED'`. -/
def end_token : List Char := "ROTATION_SPEED".toList

/-- Python's substring containment `tok in line`. -/
def containsTok (tok line : List Char) : Bool :=
  line.tails.any (fun suffix => tok.isPrefixOf suffix)

/-- Split a character list at every character satisfying `p`, keeping empty
pieces — the semantics of Python's `str.split(sep)` with an explicit
separator. -/
def splitOnPred (p : Char → Bool) : List Char → List (List Char)
  | [] => [[]]
  | c :: cs =>
    if p c then [] :: splitOnPred p cs
    else
      match splitOnPred p cs with
      | r :: rs => (c :: r) :: rs
      | [] => [[c]]

/-- Python's `line.split(',')`. -/
def splitComma (cs : List Char) : List (List Char) :=
  splitOnPred (fun c => c = ',') cs

/-- Python's `scan_string.split()`: split on whitespace runs, dropping
empty pieces. -/
def pySplit (cs : List Char) : List (List Char) :=
  (splitOnPred Char.isWhitespace cs).filter (fun t => t ≠ [])

/-- Strip an optional leading sign, reporting whether it was `'-'`. -/
def pySign : List Char → Bool × List Char
  | '-' :: rest => (true, rest)
  | '+' :: rest => (false, rest)
  | cs => (false, cs)

/-- Value of a digit string. -/
def digitsVal (cs : List Char) : ℕ :=
  cs.foldl (fun n c => 10 * n + (c.toNat - 48)) 0

/-- Python's `int(str)` on the sign-plus-digits forms occurring in LDS
logs (no underscores or surrounding whitespace); anything else raises,
i.e. returns `none`. -/
def pyInt (cs : List Char) : Option ℤ :=
  let sb := pySign cs
  if sb.2 ≠ [] ∧ sb.2.all Char.isDigit then
    some (if sb.1 then -(digitsVal sb.2 : ℤ) else (digitsVal sb.2 : ℤ))
  else none

/-- Python's `float(str)` on the plain decimal forms occurring in LDS logs
(optional sign, digits, optional decimal point — no exponents, infinities,
`nan` or underscores), returning the exact value; anything else raises,
i.e. returns `none`. -/
def pyFloat (cs : List Char) : Option ℚ :=
  let sb := pySign cs
  match splitOnPred (fun c => c = '.') sb.2 with
  | [ip] =>
    if ip ≠ [] ∧ ip.all Char.isDigit then
      some (if sb.1 then -(digitsVal ip : ℚ) else (digitsVal ip : ℚ))
    else none
  | [ip, fp] =>
    if ip ++ fp ≠ [] ∧ (ip ++ fp).all Char.isDigit then
      let v : ℚ := (digitsVal ip : ℚ) + (digitsVal fp : ℚ) / (10 : ℚ) ^ fp.length
      some (if sb.1 then -v else v)
    else none
  | _ => none

/-- The per-line body of the `from_string` loop: split on commas, check the
field count, convert the four fields (`float`, `float`, `int`, `int`),
check the sign/range constraints in source order, then the
previous-angle comparison (performed only when a previous angle exists). -/
def check_line (prev : Option ℚ) (line : List Char) :
    Except LdsError (ℚ × ℚ × ℤ × ℤ) :=
  let meas := splitComma line
  if meas.length ≠ 4 then .error .malformedRecord
  else
    match pyFloat (meas.getD 0 []), pyFloat (meas.getD 1 []),
        pyInt (meas.getD 2 []), pyInt (meas.getD 3 []) with
    | some angle, some distance, some intense, some err =>
      if distance < 0 then .error .invalidValue
      else if angle < 0 ∨ angle > 359 then .error .invalidValue
      else if intense < 0 then .error .invalidValue
      else if err < 0 then .error .invalidValue
      else
        match prev with
        | some p =>
          if p ≥ angle then .error .outOfOrder
          else .ok (angle, distance, intense, err)
        | none => .ok (angle, distance, intense, err)
    | _, _, _, _ => .error .conversionError

/-- The `from_string` loop over the whitespace-split lines.  `prev` holds
`prev_angle` (`none` for the `'No previous angle.'` sentinel); exactly as
in the source, it is assigned only when it was the sentinel, so it
permanently holds the angle of the first line.  Successful lines are added
with the default units (millimeters, degrees). -/
def from_string_go {α : Type} [LinearOrderedField α] (piv : α) :
    Option ℚ → Scan α → List (List Char) → Except LdsError (Scan α)
  | _, scan, [] => .ok scan
  | prev, scan, line :: rest =>
    match check_line prev line with
    | .error e => .error e
    | .ok (angle, distance, intense, err) =>
      match scan.add_measurement piv (distance : α) (angle : α) intense err
          "millimeters" "degrees" with
      | (scan', none) =>
        from_string_go piv (if prev.isNone then some angle else prev) scan' rest
      | (_, some e) => .error e

/-- `ScanParser.from_string`: parse one scan-string into a `Scan`, or
propagate the first error raised. -/
def from_string {α : Type} [LinearOrderedField α] (piv : α)
    (scan_string : List Char) : Except LdsError (Scan α) :=
  from_string_go piv none Scan.empty (pySplit scan_string)

/-- One iteration of the `file_to_strings` line loop, carrying
`(scans, scan_string, append_to_str)`.  File iteration yields each line
with its terminator, so accumulation appends the line followed by `'\n'`. -/
def fts_step (st : List (List Char) × List Char × Bool) (line : List Char) :
    List (List Char) × List Char × Bool :=
  if containsTok start_token line then (st.1, [], true)
  else if containsTok end_token line && st.2.2 then
    (st.1 ++ [st.2.1], st.2.1, false)
  else if st.2.2 then (st.1, st.2.1 ++ line ++ ['\n'], true)
  else st

/-- `ScanParser.file_to_strings`, with the file given as its list of lines
(line terminators stripped; the accumulation step restores them). -/
def file_to_strings (lines : List (List Char)) : List (List Char) :=
  (lines.foldl fts_step ([], [], false)).1

/-- `ScanParser.from_file`: extract the scan-strings and parse each one,
silently dropping any that raises (`try`/`except Exception: pass`). -/
def from_file {α : Type} [LinearOrderedField α] (piv : α)
    (lines : List (List Char)) : List (Scan α) :=
  (file_to_strings lines).foldl
    (fun scans scan_string =>
      match from_string piv scan_string with
      | .ok sc => scans ++ [sc]
      | .error _ => scans) []

/-- The extraction state machine as the spec (§4.2 step 1) words it: when
not accumulating (`none`), a start-token line opens a fresh empty buffer
and every other line is discarded; when accumulating (`some buf`), a
start-token line restarts the buffer, an end-token line emits the buffer
and stops accumulating, and any other line is appended to the buffer; a
buffer still open at end of file is dropped. -/
def ftsSpec : Option (List Char) → List (List Char) → List (List Char)
  | _, [] => []
  | acc, line :: rest =>
    if containsTok start_token line then ftsSpec (some []) rest
    else
      match acc with
      | some buf =>
        if containsTok end_token line then buf :: ftsSpec none rest
        else ftsSpec (some (buf ++ line ++ ['\n'])) rest
      | none => ftsSpec none rest

/-- Specification-side counterpart of `file_to_strings` (for the
refinement claim about the extraction behaviour). -/
def fileToStringsSpec (lines : List (List Char)) : List (List Char) :=
  ftsSpec none lines

end ScanParser

/-! ## General lemmas about the `Scan` container -/

namespace Botvac

theorem Scan.sort_of_clean {α : Type} [LinearOrderedField α] {s : Scan α}
    (h : s._unsorted = false) : s._sort_measurements = s := by
  unfold Scan._sort_measurements
  rw [h]
  rfl

theorem Scan.sort_clean {α : Type} [LinearOrderedField α] (s : Scan α) :
    s._sort_measurements._unsorted = false := by
  unfold Scan._sort_measurements
  by_cases h : s._unsorted = true
  · rw [if_pos h]
  · rw [if_neg h]
    exact Bool.not_eq_true _ |>.mp h

theorem Scan.sort_idem {α : Type} [LinearOrderedField α] (s : Scan α) :
    s._sort_measurements._sort_measurements = s._sort_measurements :=
  Scan.sort_of_clean (Scan.sort_clean s)

theorem Scan.add_dirty {α : Type} [LinearOrderedField α] (s : Scan α)
    (piv d a : α) (i e : ℤ) (lu au : String) :
    ((s.add_measurement piv d a i e lu au).1)._unsorted = true := by
  unfold Scan.add_measurement
  split_ifs <;> rfl

theorem Scan.add_invalid_unit {α : Type} [LinearOrderedField α] (s : Scan α)
    (piv d a : α) (i e : ℤ) (lu au : String)
    (h : lu ∉ acceptable_lu ∨ au ∉ acceptable_au) :
    s.add_measurement piv d a i e lu au =
      ({ s with _unsorted := true }, some .invalidUnit) := by
  unfold Scan.add_measurement
  split_ifs with h1 h2 <;>
    first
      | rfl
      | exact absurd h (by push_neg; exact ⟨h1, h2⟩)

theorem Scan.add_mm_deg {α : Type} [LinearOrderedField α] (s : Scan α)
    (piv d a : α) (i e : ℤ) :
    s.add_measurement piv d a i e "millimeters" "degrees" =
      ({ s with
          _unsorted := true,
          _distances :=
            s._distances ++ [if d / 1000 > s._distance_max then 0 else d / 1000],
          _angles := s._angles ++ [a * piv / 180],
          _intensities := s._intensities ++ [i],
          _error_codes := s._error_codes ++ [e] }, none) := by
  unfold Scan.add_measurement
  rw [if_neg (by decide), if_neg (by decide), if_pos rfl, if_pos rfl]

theorem Scan.add_aligned {α : Type} [LinearOrderedField α] {s : Scan α}
    (h : s.aligned) (piv d a : α) (i e : ℤ) (lu au : String) :
    ((s.add_measurement piv d a i e lu au).1).aligned := by
  obtain ⟨h1, h2, h3⟩ := h
  unfold Scan.add_measurement
  split_ifs <;>
    simp [Scan.aligned, h1, h2, h3]

theorem Scan.sort_aligned {α : Type} [LinearOrderedField α] {s : Scan α}
    (h : s.aligned) : s._sort_measurements.aligned := by
  obtain ⟨h1, h2, h3⟩ := h
  unfold Scan._sort_measurements
  split_ifs
  · simp [Scan.aligned]
  · exact ⟨h1, h2, h3⟩

theorem Scan.zip4_sort_perm {α : Type} [LinearOrderedField α] (s : Scan α) :
    s._sort_measurements.zip4.Perm s.zip4 := by
  unfold Scan._sort_measurements
  split_ifs with h
  · show (Scan.zip4 _).Perm s.zip4
    unfold Scan.zip4
    simp only [List.zip_map']
    have : (fun t : α × α × ℤ × ℤ => (t.1, t.2.1, t.2.2.1, t.2.2.2)) = id := by
      funext t
      simp
    rw [this, List.map_id]
    exact List.perm_insertionSort _ _
  · exact List.Perm.refl _

theorem Scan.sort_angles_sorted {α : Type} [LinearOrderedField α] {s : Scan α}
    (h : s._unsorted = false → s._angles.Sorted (· ≤ ·)) :
    s._sort_measurements._angles.Sorted (· ≤ ·) := by
  unfold Scan._sort_measurements
  split_ifs with hu
  · haveI : IsTotal (α × α × ℤ × ℤ) (fun x y => x.1 ≤ y.1) :=
      ⟨fun a b => le_total a.1 b.1⟩
    haveI : IsTrans (α × α × ℤ × ℤ) (fun x y => x.1 ≤ y.1) :=
      ⟨fun a b c h1 h2 => le_trans h1 h2⟩
    show List.Sorted (· ≤ ·) (List.map _ _)
    exact List.Pairwise.map _ (fun a b hab => hab) (List.sorted_insertionSort _ _)
  · exact h (Bool.not_eq_true _ |>.mp hu)

theorem Scan.reachable_invariant {α : Type} [LinearOrderedField α] {piv : α}
    {s : Scan α} (h : Reachable piv s) :
    s.aligned ∧ (s._unsorted = false → s._angles.Sorted (· ≤ ·)) := by
  induction h with
  | empty =>
    refine ⟨⟨rfl, rfl, rfl⟩, ?_⟩
    intro hfalse
    cases hfalse
  | add hr hnone ih =>
    refine ⟨Scan.add_aligned ih.1 _ _ _ _ _ _ _, ?_⟩
    intro hfalse
    rw [Scan.add_dirty] at hfalse
    cases hfalse
  | access hr ih =>
    exact ⟨Scan.sort_aligned ih.1, fun _ => Scan.sort_angles_sorted ih.2⟩

end Botvac

/-! ## Claims about `Scan` (C1, C3, C5, C6) -/

namespace Botvac

/-- C1, counterexample: `add_measurement(5000, 90, millimeters, degrees)`
does NOT store a distance of 0 — the normalized distance 5000/1000 = 5 m
equals `_distance_max` and the zeroing test is strict (`>`), so the stored
distance is 5, not 0. -/
theorem C1_counterexample :
    ((Scan.empty : Scan ℝ).add_measurement Real.pi 5000 90 0 0
        "millimeters" "degrees").1._distances = [5] ∧
      ((Scan.empty : Scan ℝ).add_measurement Real.pi 5000 90 0 0
        "millimeters" "degrees").1._distances ≠ [0] := by
  constructor
  · norm_num [Scan.add_measurement, Scan.empty, acceptable_lu, acceptable_au]
  · norm_num [Scan.add_measurement, Scan.empty, acceptable_lu, acceptable_au]

/-- C1, amended: for every `Scan` (whose maximum range is the fixed 5.0 of
`__init__`), `add_measurement(5000, 90, millimeters, degrees)` appends a
stored distance of exactly 5 — the normalized 5 m equals the 5.0 m maximum
and the zeroing policy applies only to distances strictly greater than the
maximum — and a stored angle of π/2 radians; a strictly larger input such
as 5001 mm is stored as 0. -/
theorem C1_theorem :
    (∀ s : Scan ℝ, s._distance_max = 5 →
      (s.add_measurement Real.pi 5000 90 0 0
          "millimeters" "degrees").1._distances = s._distances ++ [5] ∧
        (s.add_measurement Real.pi 5000 90 0 0
          "millimeters" "degrees").1._angles = s._angles ++ [Real.pi / 2]) ∧
      ((Scan.empty : Scan ℝ).add_measurement Real.pi 5001 90 0 0
        "millimeters" "degrees").1._distances = [0] := by
  constructor
  · intro s hmax
    rw [Scan.add_mm_deg]
    have hang : (90 : ℝ) * Real.pi / 180 = Real.pi / 2 := by ring
    constructor
    · norm_num [hmax]
    · rw [hang]
  · norm_num [Scan.add_measurement, Scan.empty, acceptable_lu, acceptable_au]

/-- C1, witness: the amended statement at a fresh `Scan()`. -/
theorem C1_witness :
    (Scan.empty : Scan ℝ)._distance_max = 5 ∧
      (((Scan.empty : Scan ℝ).add_measurement Real.pi 5000 90 0 0
          "millimeters" "degrees").1._distances =
            (Scan.empty : Scan ℝ)._distances ++ [5] ∧
        ((Scan.empty : Scan ℝ).add_measurement Real.pi 5000 90 0 0
          "millimeters" "degrees").1._angles =
            (Scan.empty : Scan ℝ)._angles ++ [Real.pi / 2]) :=
  ⟨rfl, C1_theorem.1 Scan.empty rfl⟩

/-- C3, counterexample: an invalid linear unit fails with `InvalidUnit` and
appends nothing, but the resulting state is NOT identical to the state
before the call — the dirty flag is assigned before unit validation, so a
previously sorted `Scan` comes out marked unsorted. -/
theorem C3_counterexample :
    ((Scan.empty : Scan ℚ)._sort_measurements.add_measurement 0 1 0 0 0
        "bogus" "degrees").1 ≠ (Scan.empty : Scan ℚ)._sort_measurements ∧
      ((Scan.empty : Scan ℚ)._sort_measurements.add_measurement 0 1 0 0 0
        "bogus" "degrees").2 = some LdsError.invalidUnit := by
  constructor
  · decide
  · rfl

/-- C3, amended: for every `Scan` state, `add_measurement` with a linear
unit outside `acceptable_lu` or an angular unit outside `acceptable_au`
fails with `InvalidUnit` before any measurement is appended: all four
sequences (hence their lengths) are unchanged, and the only mutation is
the dirty flag, which is set to `true` on entry before validation. -/
theorem C3_theorem {α : Type} [LinearOrderedField α] (s : Scan α)
    (piv d a : α) (i e : ℤ) (lu au : String)
    (h : lu ∉ acceptable_lu ∨ au ∉ acceptable_au) :
    s.add_measurement piv d a i e lu au =
      ({ s with _unsorted := true }, some .invalidUnit) :=
  Scan.add_invalid_unit s piv d a i e lu au h

/-- C3, witness: the amended statement at the concrete call
`add_measurement(1, 0, linear_unit="bogus")`. -/
theorem C3_witness :
    ("bogus" ∉ acceptable_lu ∨ "degrees" ∉ acceptable_au) ∧
      (Scan.empty : Scan ℚ).add_measurement 0 1 0 0 0 "bogus" "degrees" =
        ({ (Scan.empty : Scan ℚ) with _unsorted := true },
          some .invalidUnit) :=
  ⟨Or.inl (by decide),
    C3_theorem Scan.empty 0 1 0 0 0 "bogus" "degrees" (Or.inl (by decide))⟩

/-- C5: calling any read accessor twice without an intervening
`add_measurement` returns identical results and performs no second sort —
after one accessor call the dirty flag is `false` and `_sort_measurements`
is the identity on the resulting state — and any subsequent
`add_measurement` sets the dirty flag again. -/
theorem C5_theorem {α : Type} [LinearOrderedField α] (s : Scan α)
    (cosf sinf : α → α) (piv d a : α) (i e : ℤ) (lu au : String) :
    s._sort_measurements._sort_measurements = s._sort_measurements ∧
      s._sort_measurements._unsorted = false ∧
      (s.distances).2.distances = s.distances ∧
      (s.angles).2.angles = s.angles ∧
      (s.intensities).2.intensities = s.intensities ∧
      (s.error_codes).2.error_codes = s.error_codes ∧
      ((s.x cosf).2.x cosf) = s.x cosf ∧
      ((s.y sinf).2.y sinf) = s.y sinf ∧
      ((s.points cosf sinf).2.points cosf sinf) = s.points cosf sinf ∧
      ((s._sort_measurements.add_measurement piv d a i e lu au).1)._unsorted
        = true := by
  refine ⟨Scan.sort_idem s, Scan.sort_clean s, ?_, ?_, ?_, ?_, ?_, ?_, ?_,
    Scan.add_dirty _ _ _ _ _ _ _ _⟩ <;>
    simp [Scan.distances, Scan.angles, Scan.intensities, Scan.error_codes,
      Scan.x, Scan.y, Scan.points, Scan.sort_idem]

/-- C6: with `linear_unit="millimeters"` the stored distance is the input
divided by 1000 (whenever the normalized value does not exceed the
maximum), and with `angular_unit="degrees"` the stored angle is the input
times π/180; in particular `add_measurement(1000, 90)` with the default
units stores distance 1 and angle π/2. -/
theorem C6_theorem :
    (∀ (α : Type) [LinearOrderedField α], ∀ (s : Scan α) (piv d a : α)
        (i e : ℤ), ¬(d / 1000 > s._distance_max) →
      s.add_measurement piv d a i e "millimeters" "degrees" =
        ({ s with
            _unsorted := true,
            _distances := s._distances ++ [d / 1000],
            _angles := s._angles ++ [a * piv / 180],
            _intensities := s._intensities ++ [i],
            _error_codes := s._error_codes ++ [e] }, none)) ∧
      ((Scan.empty : Scan ℝ).add_measurement Real.pi 1000 90 0 0
        "millimeters" "degrees").1._distances = [1] ∧
      ((Scan.empty : Scan ℝ).add_measurement Real.pi 1000 90 0 0
        "millimeters" "degrees").1._angles = [Real.pi / 2] := by
  refine ⟨?_, ?_, ?_⟩
  · intro α _ s piv d a i e hle
    rw [Scan.add_mm_deg, if_neg hle]
  · norm_num [Scan.add_measurement, Scan.empty, acceptable_lu, acceptable_au]
  · norm_num [Scan.add_measurement, Scan.empty, acceptable_lu, acceptable_au]
    ring

theorem mm_thousand_le_max : ¬((1000 : ℚ) / 1000 > (Scan.empty : Scan ℚ)._distance_max) := by
  norm_num [Scan.empty]

/-- C6, witness: the general normalization statement instantiated at
`add_measurement(1000, 90)` over `ℚ`. -/
theorem C6_witness :
    ¬((1000 : ℚ) / 1000 > (Scan.empty : Scan ℚ)._distance_max) ∧
      (Scan.empty : Scan ℚ).add_measurement 0 1000 90 0 0
          "millimeters" "degrees" =
        ({ (Scan.empty : Scan ℚ) with
            _unsorted := true,
            _distances := (Scan.empty : Scan ℚ)._distances ++ [(1000 : ℚ) / 1000],
            _angles := (Scan.empty : Scan ℚ)._angles ++ [90 * 0 / 180],
            _intensities := (Scan.empty : Scan ℚ)._intensities ++ [0],
            _error_codes := (Scan.empty : Scan ℚ)._error_codes ++ [0] }, none) :=
  ⟨mm_thousand_le_max,
    C6_theorem.1 ℚ Scan.empty 0 1000 90 0 0 mm_thousand_le_max⟩

end Botvac

/-! ## General lemmas about the parser -/

namespace ScanParser

open Botvac

theorem check_line_ok_len4 {prev : Option ℚ} {line : List Char}
    {v : ℚ × ℚ × ℤ × ℤ} (h : check_line prev line = .ok v) :
    (splitComma line).length = 4 := by
  by_contra hne
  unfold check_line at h
  rw [if_pos hne] at h
  cases h

theorem from_string_first_error {α : Type} [LinearOrderedField α] (piv : α)
    {s line : List Char} {rest : List (List Char)} {e : LdsError}
    (hsplit : pySplit s = line :: rest)
    (hc : check_line none line = .error e) :
    from_string piv s = .error e := by
  unfold from_string
  rw [hsplit]
  simp only [from_string_go, hc]

theorem from_string_go_ok_facts {α : Type} [LinearOrderedField α] (piv : α)
    (lines : List (List Char)) :
    ∀ (prev : Option ℚ) (scan scan' : Scan α),
      from_string_go piv prev scan lines = .ok scan' →
      scan'._distances.length = scan._distances.length + lines.length ∧
        (scan.aligned → scan'.aligned) ∧
        ∀ l ∈ lines, (splitComma l).length = 4 := by
  induction lines with
  | nil =>
    intro prev scan scan' h
    simp only [from_string_go] at h
    rw [Except.ok.injEq] at h
    subst h
    exact ⟨by simp, fun ha => ha, by simp⟩
  | cons line rest ih =>
    intro prev scan scan' h
    simp only [from_string_go] at h
    cases hc : check_line prev line with
    | error e =>
      rw [hc] at h
      cases h
    | ok v =>
      obtain ⟨a, d, i, e⟩ := v
      rw [hc] at h
      simp only [Scan.add_mm_deg] at h
      obtain ⟨hlen, halign, hlines⟩ := ih _ _ _ h
      refine ⟨by simp at hlen ⊢; omega, ?_, ?_⟩
      · intro ha
        obtain ⟨ha1, ha2, ha3⟩ := ha
        exact halign (by simp [Scan.aligned, ha1, ha2, ha3])
      · intro l hl
        rcases List.mem_cons.mp hl with hl | hl
        · subst hl
          exact check_line_ok_len4 hc
        · exact hlines l hl

theorem from_file_fold {α : Type} [LinearOrderedField α] (piv : α)
    (strs : List (List Char)) :
    ∀ acc : List (Scan α),
      strs.foldl (fun scans ss =>
        match from_string piv ss with
        | .ok sc => scans ++ [sc]
        | .error _ => scans) acc =
      acc ++ strs.filterMap (fun ss => (from_string piv ss).toOption) := by
  induction strs with
  | nil =>
    intro acc
    simp
  | cons ss rest ih =>
    intro acc
    cases h : from_string piv ss with
    | ok sc =>
      simp only [List.foldl_cons, h, List.filterMap_cons, Except.toOption, ih]
      simp
    | error e =>
      simp only [List.foldl_cons, h, List.filterMap_cons, Except.toOption, ih]

theorem fts_fold_spec (lines : List (List Char)) :
    ∀ (scans : List (List Char)) (buf : List Char),
      ((lines.foldl fts_step (scans, buf, false)).1 =
        scans ++ ftsSpec none lines) ∧
      ((lines.foldl fts_step (scans, buf, true)).1 =
        scans ++ ftsSpec (some buf) lines) := by
  induction lines with
  | nil =>
    intro scans buf
    simp [ftsSpec]
  | cons line rest ih =>
    intro scans buf
    by_cases hs : containsTok start_token line
    · simp only [List.foldl_cons, fts_step, hs, if_true, Bool.true_and,
        ftsSpec, ite_true]
      exact ⟨(ih scans []).2, (ih scans []).2⟩
    · by_cases he : containsTok end_token line
      · simp only [List.foldl_cons, fts_step, hs, he, Bool.false_eq_true,
          if_false, Bool.true_and, Bool.and_true, Bool.and_false, ftsSpec,
          ite_false, ite_true]
        constructor
        · exact (ih scans buf).1
        · rw [(ih (scans ++ [buf]) buf).1]
          simp
      · simp only [List.foldl_cons, fts_step, hs, he, Bool.false_eq_true,
          if_false, Bool.false_and, Bool.and_false, ftsSpec, ite_false]
        exact ⟨(ih scans buf).1, (ih scans (buf ++ line ++ ['\n'])).2⟩

end ScanParser

/-! ## Claims about the parser pipeline and reachability (C2, C4, C7–C10) -/

namespace ScanParser

open Botvac

/-- C2: refuted — `prev_angle` is assigned only while it still holds the
sentinel, so every later line is compared against the FIRST line's angle
only.  The scan-string `"0,100,5,0 2,150,6,0 1,160,7,0"` has angles
0, 2, 1 — not strictly increasing (the third is smaller than the second,
`¬ 2 < 1`) — yet `from_string` succeeds with all three measurements
instead of failing with `OutOfOrder`. -/
theorem C2_theorem :
    (∃ scan : Scan ℝ,
        from_string Real.pi ("0,100,5,0 2,150,6,0 1,160,7,0".toList) =
            .ok scan ∧
          scan._angles.length = 3) ∧
      (pyFloat "2".toList, pyFloat "1".toList) = (some 2, some 1) ∧
      ¬ ((2 : ℚ) < 1) := by
  refine ⟨?_, by decide, by decide⟩
  have hsp : pySplit ("0,100,5,0 2,150,6,0 1,160,7,0".toList) =
      ["0,100,5,0".toList, "2,150,6,0".toList, "1,160,7,0".toList] := by
    decide
  have h1 : check_line none ("0,100,5,0".toList) = .ok (0, 100, 5, 0) := by rfl
  have h2 : check_line (some 0) ("2,150,6,0".toList) = .ok (2, 150, 6, 0) := by
    rfl
  have h3 : check_line (some 0) ("1,160,7,0".toList) = .ok (1, 160, 7, 0) := by
    rfl
  unfold from_string
  rw [hsp]
  simp only [from_string_go, h1, h2, h3, Scan.add_mm_deg, Option.isNone_none,
    Option.isNone_some, if_true, if_false, Bool.false_eq_true]
  exact ⟨_, rfl, by simp [Scan.empty]⟩

/-- C4: for every reachable `Scan` state the four sequences are aligned
and the read accessors return them sorted ascending by angle, all reading
the same sort-if-dirty state, whose record list (`zip4`) is a permutation
of the pre-access record list — the same permutation is applied to all
four sequences.  -/
theorem C4_theorem {α : Type} [LinearOrderedField α] (piv : α) (s : Scan α)
    (h : Reachable piv s) :
    s.aligned ∧
      List.Sorted (· ≤ ·) (s.angles).1 ∧
      (s.angles).2 = s._sort_measurements ∧
      (s.distances).1 = s._sort_measurements._distances ∧
      (s.intensities).1 = s._sort_measurements._intensities ∧
      (s.error_codes).1 = s._sort_measurements._error_codes ∧
      s._sort_measurements.aligned ∧
      s._sort_measurements.zip4.Perm s.zip4 := by
  obtain ⟨halign, hsorted⟩ := Scan.reachable_invariant h
  exact ⟨halign, Scan.sort_angles_sorted hsorted, rfl, rfl, rfl, rfl,
    Scan.sort_aligned halign, Scan.zip4_sort_perm s⟩

/-- C4, witness: the reachability statement at a fresh `Scan()`. -/
theorem C4_witness :
    Reachable (0 : ℚ) (Scan.empty : Scan ℚ) ∧
      ((Scan.empty : Scan ℚ).aligned ∧
        List.Sorted (· ≤ ·) ((Scan.empty : Scan ℚ).angles).1 ∧
        ((Scan.empty : Scan ℚ).angles).2 =
          (Scan.empty : Scan ℚ)._sort_measurements ∧
        ((Scan.empty : Scan ℚ).distances).1 =
          (Scan.empty : Scan ℚ)._sort_measurements._distances ∧
        ((Scan.empty : Scan ℚ).intensities).1 =
          (Scan.empty : Scan ℚ)._sort_measurements._intensities ∧
        ((Scan.empty : Scan ℚ).error_codes).1 =
          (Scan.empty : Scan ℚ)._sort_measurements._error_codes ∧
        (Scan.empty : Scan ℚ)._sort_measurements.aligned ∧
        (Scan.empty : Scan ℚ)._sort_measurements.zip4.Perm
          (Scan.empty : Scan ℚ).zip4) :=
  ⟨Reachable.empty, C4_theorem 0 Scan.empty Reachable.empty⟩

/-- C7: `file_to_strings` equals the spec's state machine — one
scan-string per completed start/end token pair, marker lines excluded,
lines outside an accumulation discarded, an unterminated trailing
accumulation dropped — and on a concrete file with one complete block,
stray lines, and one unterminated block it extracts exactly the complete
block's data line. -/
theorem C7_theorem :
    (∀ lines, file_to_strings lines = fileToStringsSpec lines) ∧
      file_to_strings
        ["AngleInDegrees".toList, "0,100,5,0".toList, "ROTATION_SPEED".toList,
          "junk".toList, "AngleInDegrees".toList, "1,100,5,0".toList] =
        ["0,100,5,0\n".toList] := by
  constructor
  · intro lines
    unfold file_to_strings fileToStringsSpec
    rw [(fts_fold_spec lines [] []).1]
    simp
  · decide

/-- C8: `from_file` equals, in file order, the filter-map of `from_string`
over the extracted scan-strings — every parse error is caught and its
scan-string dropped, no error escapes — hence its length is at most the
number of extracted scan-strings; and a successful `from_string` returns a
`Scan` with exactly one measurement per whitespace-separated data line,
its four sequences aligned. -/
theorem C8_theorem {α : Type} [LinearOrderedField α] (piv : α)
    (lines : List (List Char)) (s : List Char) (scan : Scan α) :
    from_file piv lines =
      (file_to_strings lines).filterMap
        (fun ss => (from_string piv ss).toOption) ∧
      (from_string piv s = .ok scan →
        scan._distances.length = (pySplit s).length ∧ scan.aligned) ∧
      (from_file piv lines).length ≤ (file_to_strings lines).length := by
  have h1 : from_file piv lines =
      (file_to_strings lines).filterMap
        (fun ss => (from_string piv ss).toOption) := by
    unfold from_file
    rw [from_file_fold piv _ []]
    simp
  refine ⟨h1, ?_, ?_⟩
  · intro h
    obtain ⟨hlen, halign, _⟩ :=
      from_string_go_ok_facts piv (pySplit s) none Scan.empty scan h
    refine ⟨by simpa [Scan.empty] using hlen, halign ⟨rfl, rfl, rfl⟩⟩
  · rw [h1]
    exact List.length_filterMap_le _ _

/-- C8, witness: the empty scan-string parses to the fresh `Scan` with
zero measurements, and `from_file` on the empty file is the (empty)
filter-map. -/
theorem C8_witness :
    from_string (0 : ℚ) [] = .ok Scan.empty ∧
      ((Scan.empty : Scan ℚ)._distances.length = (pySplit []).length ∧
        (Scan.empty : Scan ℚ).aligned) ∧
      from_file (0 : ℚ) [] =
        (file_to_strings []).filterMap
          (fun ss => (from_string (0 : ℚ) ss).toOption) :=
  ⟨rfl, (C8_theorem (0 : ℚ) [] [] Scan.empty).2.1 rfl,
    (C8_theorem (0 : ℚ) [] [] Scan.empty).1⟩

/-- C9: a line that does not split into exactly 4 comma-separated fields
fails with `MalformedRecord`; a line whose 4 fields convert but violate
`distance ≥ 0`, `0 ≤ angle ≤ 359`, `intensity ≥ 0` or `error_code ≥ 0`
fails with `InvalidValue`; `from_string` propagates the error of a failing
first line, succeeds only if every line has exactly 4 fields, and fails
with `MalformedRecord` on `"0,100,5"`. -/
theorem C9_theorem {α : Type} [LinearOrderedField α] (piv : α)
    (prev : Option ℚ) (line s : List Char) (rest : List (List Char))
    (a d : ℚ) (i e : ℤ) :
    ((splitComma line).length ≠ 4 →
        check_line prev line = .error .malformedRecord) ∧
      ((splitComma line).length = 4 →
        pyFloat ((splitComma line).getD 0 []) = some a →
        pyFloat ((splitComma line).getD 1 []) = some d →
        pyInt ((splitComma line).getD 2 []) = some i →
        pyInt ((splitComma line).getD 3 []) = some e →
        (d < 0 ∨ a < 0 ∨ a > 359 ∨ i < 0 ∨ e < 0) →
        check_line prev line = .error .invalidValue) ∧
      (pySplit s = line :: rest → ∀ err, check_line none line = .error err →
        from_string piv s = .error err) ∧
      (∀ scan : Scan α, from_string piv s = .ok scan →
        ∀ l ∈ pySplit s, (splitComma l).length = 4) ∧
      from_string piv ("0,100,5".toList) = .error .malformedRecord := by
  refine ⟨?_, ?_, ?_, ?_, rfl⟩
  · intro h4
    unfold check_line
    rw [if_pos h4]
  · intro h4 ha hd hi he hbad
    unfold check_line
    rw [if_neg (not_not.mpr h4)]
    simp only [ha, hd, hi, he]
    split_ifs with hq1 hq2 hq3 hq4
    · rfl
    · rfl
    · rfl
    · rfl
    · exfalso
      push_neg at hq2
      rcases hbad with hb | hb | hb | hb | hb
      · exact hq1 hb
      · exact absurd hb (by linarith [hq2.1])
      · exact absurd hb (by linarith [hq2.2])
      · exact hq3 hb
      · exact hq4 hb
  · intro hsp err hc
    exact from_string_first_error piv hsp hc
  · intro scan h l hl
    exact (from_string_go_ok_facts piv (pySplit s) none Scan.empty scan h).2.2
      l hl

/-- C9, witness: the field-count rule at `"0,100,5"` (3 fields) and the
range rule at `"0,-1,5,0"` (negative distance). -/
theorem C9_witness :
    ((splitComma "0,100,5".toList).length ≠ 4) ∧
      check_line none "0,100,5".toList = .error .malformedRecord ∧
      ((splitComma "0,-1,5,0".toList).length = 4) ∧
      check_line none "0,-1,5,0".toList = .error .invalidValue :=
  ⟨by decide,
    (C9_theorem (0 : ℚ) none "0,100,5".toList [] [] 0 0 0 0).1 (by decide),
    by decide,
    (C9_theorem (0 : ℚ) none "0,-1,5,0".toList [] [] 0 (-1) 5 0).2.1
      (by decide) (by decide) (by decide) (by decide) (by decide)
      (Or.inl (by decide))⟩

/-- C10: a line with exactly 4 comma-separated fields of which some field
fails numeric conversion makes `check_line` fail with the
conversion error — for any previous-angle state and regardless of the
other fields' values, i.e. before any range or ordering validation — so
`from_string` on such a first line fails the whole scan-string, and
`from_file` drops the block containing it. -/
theorem C10_theorem {α : Type} [LinearOrderedField α] (piv : α)
    (prev : Option ℚ) (line s : List Char) (rest : List (List Char)) :
    ((splitComma line).length = 4 →
        (pyFloat ((splitComma line).getD 0 []) = none ∨
          pyFloat ((splitComma line).getD 1 []) = none ∨
          pyInt ((splitComma line).getD 2 []) = none ∨
          pyInt ((splitComma line).getD 3 []) = none) →
        check_line prev line = .error .conversionError) ∧
      (pySplit s = line :: rest →
        check_line none line = .error .conversionError →
        from_string piv s = .error .conversionError) ∧
      from_string piv ("abc,100,5,0".toList) = .error .conversionError ∧
      from_file piv
        ["AngleInDegrees".toList, "abc,100,5,0".toList,
          "ROTATION_SPEED".toList] = [] := by
  refine ⟨?_, ?_, rfl, rfl⟩
  · intro h4 hnone
    unfold check_line
    rw [if_neg (not_not.mpr h4)]
    cases h0 : pyFloat ((splitComma line).getD 0 []) <;>
      cases hd : pyFloat ((splitComma line).getD 1 []) <;>
        cases hi : pyInt ((splitComma line).getD 2 []) <;>
          cases he : pyInt ((splitComma line).getD 3 []) <;>
            simp_all
  · intro hsp hc
    exact from_string_first_error piv hsp hc

/-- C10, witness: the conversion rule at `"abc,-5,5,0"` (unparseable angle
field, negative distance field — the error is still the conversion one),
and the first-line propagation at the single-line scan-string
`"abc,100,5,0"`. -/
theorem C10_witness :
    ((splitComma "abc,-5,5,0".toList).length = 4) ∧
      (pyFloat ((splitComma "abc,-5,5,0".toList).getD 0 []) = none) ∧
      check_line none "abc,-5,5,0".toList = .error .conversionError ∧
      (pySplit "abc,100,5,0".toList = ["abc,100,5,0".toList]) ∧
      from_string (0 : ℚ) "abc,100,5,0".toList = .error .conversionError :=
  ⟨by decide, by decide,
    (C10_theorem (0 : ℚ) none "abc,-5,5,0".toList [] []).1 (by decide)
      (Or.inl (by decide)),
    by decide,
    (C10_theorem (0 : ℚ) none "abc,100,5,0".toList "abc,100,5,0".toList []).2.1
      (by decide) (by rfl)⟩

end ScanParser
